import Mathlib

/-!
Verification of the pseudonema-bot trend pipeline (src/main.py, src/scout_agent.py).

Shallow embedding conventions: Python `str` is Lean `String` (a list of code
points, matching Python's code-point indexing and slicing); Python slicing
`s[:n]` is `pyTake s n`; raised exceptions from external collaborators are
modelled with `Except`; the awaited transport and storage calls of a handler
are reified as an ordered list of effects so that frame properties can be
stated about them.
-/

/-- Python `s[:n]`: the first `n` code points of `s`. -/
def pyTake (s : String) (n : Nat) : String := ⟨s.data.take n⟩

theorem str_data_append (a b : String) : (a ++ b).data = a.data ++ b.data := by
  cases a; cases b; rfl

/-- Per-character replacement table of Python `html.escape(s, quote=True)`:
`&` `<` `>` `"` and the apostrophe (code point 39) get entity-escaped.
`html.escape` replaces `&` first, so a single character-wise map is
equivalent to its sequential `str.replace` chain. -/
def escapeChar (c : Char) : List Char :=
  if c = '&' then "&amp;".data
  else if c = '<' then "&lt;".data
  else if c = '>' then "&gt;".data
  else if c = '"' then "&quot;".data
  else if c = Char.ofNat 39 then "&#x27;".data
  else [c]

/-- Python `html.escape(s)` (quote=True, the default used by `main.py`). -/
def htmlEscape (s : String) : String := ⟨(s.data.map escapeChar).flatten⟩

/-- Model of Python `str.title()` restricted to ASCII letters: a letter that
follows a non-letter is uppercased, every other letter is lowercased. -/
def pyTitleAux : Bool → List Char → List Char
  | _, [] => []
  | prevAlpha, c :: rest =>
    (if c.isAlpha then (if prevAlpha then c.toLower else c.toUpper) else c) ::
      pyTitleAux c.isAlpha rest

/-- Python `s.title()` (ASCII model). -/
def pyTitle (s : String) : String := ⟨pyTitleAux false s.data⟩

/-- Python's `pat in s` substring test on code-point lists. -/
def hasSubstring (pat : List Char) : List Char → Bool
  | [] => pat.isEmpty
  | c :: rest => pat.isPrefixOf (c :: rest) || hasSubstring pat rest

/-- UTF-8 size in bytes of one code point (what `str.encode("utf-8")` and the
Telegram 64-byte `callback_data` ceiling count). -/
def charBytes (c : Char) : Nat :=
  if c.toNat < 0x80 then 1
  else if c.toNat < 0x800 then 2
  else if c.toNat < 0x10000 then 3
  else 4

/-- UTF-8 length in bytes of a string. -/
def utf8Len (s : String) : Nat := (s.data.map charBytes).sum

/-- The fixed action tag `"scout_"` as a code-point list. -/
def scoutPat : List Char := ['s', 'c', 'o', 'u', 't', '_']

/-- Callback encoder of `build_dynamic_keyboard` (main.py:64-66):
`callback_data = f"scout_{topic[:45]}"`. -/
def encode (topic : String) : String := "scout_" ++ pyTake topic 45

/-- Python `data.replace("scout_", "")` from `button_handler` (main.py:165):
left-to-right, non-overlapping removal of every occurrence of `"scout_"`. -/
def strip_scout : List Char → List Char
  | 's' :: 'c' :: 'o' :: 'u' :: 't' :: '_' :: rest => strip_scout rest
  | [] => []
  | c :: rest => c :: strip_scout rest

/-- Callback decoder of `button_handler` (main.py:165):
`topic = data.replace("scout_", "")`. -/
def decode (data : String) : String := ⟨strip_scout data.data⟩

/-- Python `data.startswith("scout_")` (main.py:164). -/
def startsWithScout (data : String) : Bool := scoutPat.isPrefixOf data.data

/-- `telegram.InlineKeyboardButton`: the two fields `main.py` sets. -/
structure InlineKeyboardButton where
  text : String
  callback_data : String
deriving DecidableEq

/-- The `for i in range(0, len(trend_names), 2): row = trend_names[i:i+2]`
loop of `build_dynamic_keyboard` (main.py:61-63): split a list into
consecutive pairs, a final singleton when the length is odd. -/
def chunkPairs {α : Type} : List α → List (List α)
  | [] => []
  | [a] => [[a]]
  | a :: b :: rest => [a, b] :: chunkPairs rest

/-- One trend button (main.py:66): full name as label, encoded token as
callback data. -/
def mkTrendButton (topic : String) : InlineKeyboardButton :=
  { text := topic, callback_data := encode topic }

/-- The fixed regenerate control appended at main.py:69. -/
def refreshButton : InlineKeyboardButton :=
  { text := "🔄 Generate New Trends", callback_data := "refresh_trending" }

/-- `build_dynamic_keyboard` (main.py:57-70): trend buttons two per row in
input order, then one final row holding the regenerate control. -/
def build_dynamic_keyboard (trend_names : List String) :
    List (List InlineKeyboardButton) :=
  (chunkPairs trend_names).map (fun row => row.map mkTrendButton) ++ [[refreshButton]]

/-- A `Trend` record from `config.py` as used by `main.py`: only its `name`
is read (main.py:96). -/
structure Trend where
  name : String
deriving DecidableEq

/-- The tuple returned by `ConfigManager.get_trends()` (main.py:84). -/
structure TrendConfig where
  num_trends : Nat
  category : String
  subcategory : String
  topics : List String
  urls : List String

/-- Process state consumed by `trigger_trend_generation`: whether the global
`_config_mgr` and `_trend_engine` handles are set, the configuration tuple,
and the outcome of the awaited pipeline (`_config_mgr.initialize()`,
`get_trends()`, `fetch_and_generate_trends(...)`) — `Except.error e` models
any exception raised inside the `try` block of main.py:80-118. -/
structure BotEnv where
  initialized : Bool
  cfg : TrendConfig
  engine : Except String (List Trend)

/-- One outbound transport call made by a handler in `main.py`. -/
inductive Effect
  | replyText (text : String) (parseMode : Option String)
  | editText (text : String) (markup : Option (List (List InlineKeyboardButton)))
      (parseMode : Option String)
  | answerCallback (text : Option String) (showAlert : Bool)
deriving DecidableEq

/-- The success message body of main.py:105-110. -/
def renderTrendsText (cfg : TrendConfig) : String :=
  let safe_category := pyTitle (htmlEscape cfg.category)
  let safe_subcat :=
    pyTitle ⟨(htmlEscape cfg.subcategory).data.map (fun c => if c = '_' then ' ' else c)⟩
  let topics_str :=
    if cfg.topics.isEmpty then "general news" else String.intercalate ", " cfg.topics
  let safe_topics := htmlEscape topics_str
  "🔥 <b>Live Trends Discovered</b>\n\n<b>Category:</b> " ++ safe_category ++
    " &gt; " ++ safe_subcat ++ "\n<b>Focus:</b> " ++ safe_topics ++
    "\n\n👇 Select a trend below:"

/-- `trigger_trend_generation` (main.py:72-118) as its ordered list of
outbound transport calls. -/
def trigger_trend_generation (env : BotEnv) : List Effect :=
  if !env.initialized then
    [Effect.replyText "System not fully initialized." none]
  else
    Effect.replyText "🔥 <b>Scanning the web for live tech trends...</b>" (some "HTML") ::
    match env.engine with
    | Except.error e =>
      [Effect.editText ("❌ <b>Error generating trends</b>: " ++ htmlEscape e)
        none (some "HTML")]
    | Except.ok trends =>
      if trends.isEmpty then
        [Effect.editText "⚠️ <b>Scan Complete</b>, but no significant trends were extracted."
          none (some "HTML")]
      else
        [Effect.editText (renderTrendsText env.cfg)
          (some (build_dynamic_keyboard (trends.map Trend.name))) (some "HTML")]

/-- Welcome text of `start_command` (main.py:128-132). -/
def startText (firstName : String) : String :=
  "👋 <b>Hello, " ++ htmlEscape firstName ++
    "!</b> \n\nI am your AI Trend Analyzer.\n\nUse <code>/trending</code> to scan the web and extract the latest emerging tech trends."

/-- Help text of `help_command` (main.py:139-143). -/
def helpText : String :=
  "🤖 <b>Bot Commands:</b>\n<code>/start</code> - Main menu\n<code>/trending</code> - Scan web for live trends"

/-- An inbound transport event reaching the dispatcher: a slash command
(with the sender id and first name the handlers read) or a button press
(with the sender id and optional `callback_query.data`). -/
inductive TEvent
  | command (name : String) (userId : Int) (firstName : String)
  | buttonPress (userId : Int) (data : Option String)

/-- The principal that sent the event. -/
def TEvent.user : TEvent → Int
  | .command _ uid _ => uid
  | .buttonPress uid _ => uid

/-- Whether the event is a button press. -/
def TEvent.isButton : TEvent → Bool
  | .command _ _ _ => false
  | .buttonPress _ _ => true

/-- `button_handler` (main.py:151-170): inline admin check, then the
`scout_` / `refresh_trending` branches. -/
def button_handler (adminId : Int) (env : BotEnv) (userId : Int)
    (data : Option String) : List Effect :=
  if userId ≠ adminId then
    [Effect.answerCallback (some "⛔ Access Denied") true]
  else
    match data with
    | none => []
    | some d =>
      if startsWithScout d then
        [Effect.answerCallback
          (some ("Pipeline paused at Trend Engine.\n\nSelected: " ++ decode d)) true]
      else if d = "refresh_trending" then
        Effect.answerCallback none false :: trigger_trend_generation env
      else []

/-- Event dispatch as registered in `lifespan` (main.py:208-213): the three
command handlers carry `filters.User(user_id=ADMIN_ID)`, so a command from
any other principal matches no handler and produces nothing; the callback
handler is registered unfiltered and checks the admin id inline. -/
def dispatch (adminId : Int) (env : BotEnv) : TEvent → List Effect
  | .command name userId firstName =>
    if userId ≠ adminId then []
    else if name = "start" then [Effect.replyText (startText firstName) (some "HTML")]
    else if name = "help" then [Effect.replyText helpText (some "HTML")]
    else if name = "trending" then trigger_trend_generation env
    else []
  | .buttonPress userId data => button_handler adminId env userId data

/-- One parsed feed entry as `scout_agent.py` reads it: `title` and `link`
are accessed unconditionally, `summary` through `hasattr`. -/
structure FeedEntry where
  title : String
  link : String
  summary : Option String
deriving DecidableEq

/-- One row destined for the `raw_news` table (scout_agent.py:43-49). -/
structure RawItem where
  session_id : Nat
  source : String
  title : String
  url : String
  summary : String
deriving DecidableEq

/-- A storage write performed by `run_scout`. -/
inductive DbWrite
  | insertSession (topic : String)
  | insertBatch (items : List RawItem)
deriving DecidableEq

/-- Whether a write is the `research_sessions` insert. -/
def DbWrite.isSession : DbWrite → Bool
  | .insertSession _ => true
  | .insertBatch _ => false

/-- Whether a write is the `raw_news` batch insert. -/
def DbWrite.isBatch : DbWrite → Bool
  | .insertSession _ => false
  | .insertBatch _ => true

/-- The fixed news feed list (scout_agent.py:20-25). -/
def news_feeds : List String :=
  ["https://techcrunch.com/feed/",
   "https://www.theverge.com/rss/index.xml",
   "https://news.ycombinator.com/rss",
   "https://www.wired.com/feed/category/security/latest/rss"]

/-- The topic-parameterized Reddit feed list (scout_agent.py:28-32). -/
def reddit_feeds (topic : String) : List String :=
  ["https://www.reddit.com/r/technology/search.rss?q=" ++ topic ++ "&restrict_sr=1&sort=top&t=week",
   "https://www.reddit.com/r/artificial/search.rss?q=" ++ topic ++ "&restrict_sr=1&sort=top&t=week",
   "https://www.reddit.com/r/programming/search.rss?q=" ++ topic ++ "&restrict_sr=1&sort=top&t=week"]

/-- `all_feeds = news_feeds + reddit_feeds` (scout_agent.py:34). -/
def all_feeds (topic : String) : List String := news_feeds ++ reddit_feeds topic

/-- The dict built per entry at scout_agent.py:43-49: source classified by
`"reddit.com" in feed_url`, summary truncated to 500 code points or `""`
when the attribute is absent. -/
def entryToItem (session_id : Nat) (feed_url : String) (e : FeedEntry) : RawItem :=
  { session_id := session_id
    source := if hasSubstring ("reddit.com".data) feed_url.data then "Reddit" else "News"
    title := e.title
    url := e.link
    summary := match e.summary with
      | some s => pyTake s 500
      | none => "" }

/-- The guarded per-feed body (scout_agent.py:38-51): `feedparser.parse` is
modelled by the `fetch` oracle; an exception is caught and the feed
contributes nothing, otherwise the first 3 entries are converted. -/
def feedItems (session_id : Nat) (fetch : String → Except String (List FeedEntry))
    (feed_url : String) : List RawItem :=
  match fetch feed_url with
  | Except.error _ => []
  | Except.ok entries => (entries.take 3).map (entryToItem session_id feed_url)

/-- The whole collection loop: items appended feed by feed, in feed order. -/
def collect_items (session_id : Nat)
    (fetch : String → Except String (List FeedEntry)) (feeds : List String) :
    List RawItem :=
  (feeds.map (feedItems session_id fetch)).flatten

/-- `run_scout` (scout_agent.py:10-57): the session-record insert, the guarded
batch insert, and the returned `(len(collected_items), session_id)` pair.
`session_id` is the id the storage backend returns for the session insert. -/
def run_scout (topic : String) (session_id : Nat)
    (fetch : String → Except String (List FeedEntry)) :
    List DbWrite × Nat × Nat :=
  let collected := collect_items session_id fetch (all_feeds topic)
  (DbWrite.insertSession topic ::
     (if collected.isEmpty then [] else [DbWrite.insertBatch collected]),
   collected.length, session_id)

/-- A processing step of the webhook endpoint after authentication. -/
inductive WebhookStep
  | deserializeBody
  | dispatchUpdate
deriving DecidableEq

/-- Response status plus the processing steps the endpoint performed. -/
structure WebhookResult where
  status : Nat
  steps : List WebhookStep
deriving DecidableEq

/-- `telegram_webhook` (main.py:239-262): the secret-header comparison
(`!=` on two Python Optionals, so two absent values compare equal), then
`request.json()`, the `ptb_app` presence check, and `process_update`.
`jsonOk` models whether `request.json()` succeeds, `appReady` whether
`app.state.ptb_app` is set. -/
def telegram_webhook (secret header : Option String) (jsonOk appReady : Bool) :
    WebhookResult :=
  if header ≠ secret then ⟨403, []⟩
  else if !jsonOk then ⟨500, [WebhookStep.deserializeBody]⟩
  else if !appReady then ⟨500, [WebhookStep.deserializeBody]⟩
  else ⟨200, [WebhookStep.deserializeBody, WebhookStep.dispatchUpdate]⟩

/-! Helper lemmas. -/

theorem strip_scout_cons (t : List Char) :
    strip_scout ('s' :: 'c' :: 'o' :: 'u' :: 't' :: '_' :: t) = strip_scout t := rfl

theorem strip_scout_id (t : List Char) (h : hasSubstring scoutPat t = false) :
    strip_scout t = t := by
  induction t using strip_scout.induct with
  | case1 rest ih =>
    rw [hasSubstring] at h
    simp [scoutPat, List.isPrefixOf] at h
  | case2 => rfl
  | case3 c rest hne ih =>
    rw [hasSubstring] at h
    simp only [Bool.or_eq_false_iff] at h
    rw [strip_scout]
    · rw [ih h.2]
    · exact hne

theorem scout_append_ne_refresh (x : String) :
    ("scout_" ++ x : String) ≠ "refresh_trending" := by
  intro hcontra
  have hd : ("scout_" ++ x).data = ("refresh_trending" : String).data := by
    rw [hcontra]
  rw [str_data_append] at hd
  have h6 : (("scout_" : String).data ++ x.data).take 6 =
      (("refresh_trending" : String).data).take 6 := by rw [hd]
  rw [show (6 : Nat) = ("scout_" : String).data.length from rfl, List.take_left] at h6
  exact absurd h6 (by decide)

theorem chunkPairs_flatten {α : Type} (l : List α) : (chunkPairs l).flatten = l := by
  match l with
  | [] => simp [chunkPairs]
  | [a] => simp [chunkPairs]
  | a :: b :: rest => simp [chunkPairs, chunkPairs_flatten rest]

theorem chunkPairs_length {α : Type} (l : List α) :
    (chunkPairs l).length = (l.length + 1) / 2 := by
  match l with
  | [] => simp [chunkPairs]
  | [a] => simp [chunkPairs]
  | a :: b :: rest =>
    simp [chunkPairs, chunkPairs_length rest]
    omega

theorem chunkKb_rows (trend_names : List String) :
    ((chunkPairs trend_names).map (fun row => row.map mkTrendButton)).all
      (fun row => decide (row.length = 1 ∨ row.length = 2)) = true := by
  match trend_names with
  | [] => rfl
  | [a] => rfl
  | a :: b :: rest => simpa [chunkPairs] using chunkKb_rows rest

/-! Claim theorems. -/

/-- C1 (counterexample): the round trip is not the identity for every name of
length at most 45: the six-character name `"scout_"` encodes to
`"scout_scout_"`, and `replace("scout_", "")` removes both occurrences,
decoding to `""` instead of `"scout_"`. -/
theorem decode_encode_scout_counterexample :
    ("scout_" : String).length ≤ 45 ∧ decode (encode "scout_") ≠ "scout_" := by
  decide

/-- C1 (amended): for every trend name whose first 45 characters do not
contain `"scout_"` as a substring, decoding the encoded token yields the
first 45 characters of the name, hence the name itself when its length is
at most 45. -/
theorem decode_encode_roundtrip (name : String)
    (h : hasSubstring scoutPat (name.data.take 45) = false) :
    decode (encode name) = pyTake name 45 ∧
    (name.length ≤ 45 → decode (encode name) = name) := by
  have hd : (encode name).data =
      's' :: 'c' :: 'o' :: 'u' :: 't' :: '_' :: name.data.take 45 := by
    simp only [encode, str_data_append]
    rfl
  have key : decode (encode name) = pyTake name 45 := by
    show String.mk (strip_scout (encode name).data) = pyTake name 45
    rw [hd, strip_scout_cons, strip_scout_id _ h]
    rfl
  refine ⟨key, fun hlen => ?_⟩
  rw [key]
  show String.mk (name.data.take 45) = name
  rw [List.take_of_length_le (by exact hlen)]

theorem decode_encode_roundtrip_witness :
    hasSubstring scoutPat (("Quantum Computing" : String).data.take 45) = false ∧
    decode (encode "Quantum Computing") = "Quantum Computing" := by
  refine ⟨by decide, ?_⟩
  exact (decode_encode_roundtrip "Quantum Computing" (by decide)).2 (by decide)

/-- C2 (code evaluated at the failing input): a trend name of 45 two-byte
characters is legal input, survives the `[:45]` truncation unchanged, and
its encoded callback identifier is 96 UTF-8 bytes — beyond the 64-byte
ceiling the claim (and the comment at main.py:64) promise, because the code
truncates by characters, not bytes. -/
theorem encode_byte_length_counterexample :
    (String.mk (List.replicate 45 'é')).length = 45 ∧
    64 < utf8Len (encode (String.mk (List.replicate 45 'é'))) := by
  decide

/-- C3: an event whose principal is not the configured admin produces only
the rejection notice: a button press yields exactly the `"⛔ Access Denied"`
alert, and a command from a non-admin matches no registered handler (the
command handlers carry the admin-only filter) and yields no effect at all —
in both cases no trend synthesis, no message send or edit, and no storage
write occurs. -/
theorem unauthorized_only_rejection (adminId : Int) (env : BotEnv) (ev : TEvent)
    (h : ev.user ≠ adminId) :
    dispatch adminId env ev =
      (if ev.isButton then [Effect.answerCallback (some "⛔ Access Denied") true]
       else []) := by
  cases ev with
  | command name uid firstName =>
    have h' : uid ≠ adminId := h
    simp [dispatch, TEvent.isButton, h']
  | buttonPress uid data =>
    have h' : uid ≠ adminId := h
    simp [dispatch, button_handler, TEvent.isButton, h']

theorem unauthorized_only_rejection_witness :
    (TEvent.buttonPress 7 (some "scout_x")).user ≠ 42 ∧
    dispatch 42 ⟨true, ⟨4, "tech", "ai", [], []⟩, Except.ok []⟩
        (TEvent.buttonPress 7 (some "scout_x")) =
      [Effect.answerCallback (some "⛔ Access Denied") true] := by
  refine ⟨by decide, ?_⟩
  simpa using unauthorized_only_rejection 42 ⟨true, ⟨4, "tech", "ai", [], []⟩, Except.ok []⟩
    (TEvent.buttonPress 7 (some "scout_x")) (by decide)

/-- C4: for every input list of trend names, including the empty list, the
keyboard's final row is exactly the regenerate control, that control
carries the static token `"refresh_trending"`, and it is the only control
in the whole keyboard carrying that token. -/
theorem keyboard_regenerate_unique_last (trend_names : List String) :
    refreshButton.callback_data = "refresh_trending" ∧
    (build_dynamic_keyboard trend_names).getLast? = some [refreshButton] ∧
    ((build_dynamic_keyboard trend_names).flatten.filter
        (fun b => b.callback_data == "refresh_trending")).length = 1 := by
  refine ⟨rfl, List.getLast?_concat _, ?_⟩
  rw [build_dynamic_keyboard, List.flatten_append, List.filter_append]
  have h1 : (((chunkPairs trend_names).map (fun row => row.map mkTrendButton)).flatten.filter
      (fun b => b.callback_data == "refresh_trending")) = [] := by
    rw [← List.map_flatten, chunkPairs_flatten, List.filter_eq_nil_iff]
    intro b hb
    obtain ⟨t, _, rfl⟩ := List.mem_map.mp hb
    simpa [mkTrendButton, encode] using scout_append_ne_refresh (pyTake t 45)
  rw [h1]
  rfl

/-- C5: the trend rows (all keyboard rows except the final regenerate row)
number `⌈n/2⌉`, every row has one or two buttons, and reading the rows in
order reproduces the input name list exactly — no reordering, no
deduplication. -/
theorem keyboard_two_per_row (trend_names : List String) :
    ((build_dynamic_keyboard trend_names).dropLast).length = (trend_names.length + 1) / 2 ∧
    ((build_dynamic_keyboard trend_names).dropLast).flatten.map InlineKeyboardButton.text
      = trend_names ∧
    ((build_dynamic_keyboard trend_names).dropLast).all
      (fun row => decide (row.length = 1 ∨ row.length = 2)) = true := by
  rw [build_dynamic_keyboard, List.dropLast_concat]
  refine ⟨?_, ?_, chunkKb_rows trend_names⟩
  · rw [List.length_map, chunkPairs_length]
  · rw [← List.map_flatten, chunkPairs_flatten, List.map_map]
    have hcomp : InlineKeyboardButton.text ∘ mkTrendButton = id := rfl
    rw [hcomp, List.map_id]

/-- C6: for an authorized button press, a token with the `scout_` tag yields
exactly one alert acknowledgment carrying the decoded payload and nothing
else; the `"refresh_trending"` token yields a silent acknowledgment
followed by exactly the effects of the `/trending` command flow on the same
environment. -/
theorem button_admin_dispatch (adminId : Int) (env : BotEnv) (d : String)
    (firstName : String) :
    (startsWithScout d = true →
      dispatch adminId env (TEvent.buttonPress adminId (some d)) =
        [Effect.answerCallback
          (some ("Pipeline paused at Trend Engine.\n\nSelected: " ++ decode d)) true]) ∧
    (d = "refresh_trending" →
      dispatch adminId env (TEvent.buttonPress adminId (some d)) =
        Effect.answerCallback none false ::
          dispatch adminId env (TEvent.command "trending" adminId firstName)) := by
  constructor
  · intro hs
    simp [dispatch, button_handler, hs]
  · intro hdat
    subst hdat
    have hns : startsWithScout "refresh_trending" = false := by decide
    simp [dispatch, button_handler, hns]

theorem button_admin_dispatch_witness :
    (startsWithScout "scout_AI" = true ∧
      dispatch 1 ⟨false, ⟨4, "tech", "ai", [], []⟩, Except.ok []⟩
          (TEvent.buttonPress 1 (some "scout_AI")) =
        [Effect.answerCallback
          (some ("Pipeline paused at Trend Engine.\n\nSelected: " ++ decode "scout_AI"))
          true]) ∧
    dispatch 1 ⟨false, ⟨4, "tech", "ai", [], []⟩, Except.ok []⟩
        (TEvent.buttonPress 1 (some "refresh_trending")) =
      Effect.answerCallback none false ::
        dispatch 1 ⟨false, ⟨4, "tech", "ai", [], []⟩, Except.ok []⟩
          (TEvent.command "trending" 1 "A") := by
  refine ⟨⟨by decide, ?_⟩, ?_⟩
  · exact (button_admin_dispatch 1 ⟨false, ⟨4, "tech", "ai", [], []⟩, Except.ok []⟩
      "scout_AI" "A").1 (by decide)
  · exact (button_admin_dispatch 1 ⟨false, ⟨4, "tech", "ai", [], []⟩, Except.ok []⟩
      "refresh_trending" "A").2 rfl

/-- C7: every run inserts exactly one session record; the returned pair is
`(collected count, session id)`; a run that collects nothing performs no
batch insert, and a run that collects at least one item performs exactly
one batch insert holding the full collection. -/
theorem run_scout_session_and_batch (topic : String) (session_id : Nat)
    (fetch : String → Except String (List FeedEntry)) :
    ((run_scout topic session_id fetch).1.filter DbWrite.isSession) =
      [DbWrite.insertSession topic] ∧
    (run_scout topic session_id fetch).2.1 =
      (collect_items session_id fetch (all_feeds topic)).length ∧
    (run_scout topic session_id fetch).2.2 = session_id ∧
    ((run_scout topic session_id fetch).2.1 = 0 →
      ((run_scout topic session_id fetch).1.filter DbWrite.isBatch) = []) ∧
    ((run_scout topic session_id fetch).2.1 ≠ 0 →
      ((run_scout topic session_id fetch).1.filter DbWrite.isBatch) =
        [DbWrite.insertBatch (collect_items session_id fetch (all_feeds topic))]) := by
  by_cases hc : (collect_items session_id fetch (all_feeds topic)).isEmpty
  · have hlen : (collect_items session_id fetch (all_feeds topic)).length = 0 := by
      simpa [List.isEmpty_iff, List.length_eq_zero] using hc
    simp [run_scout, hc, DbWrite.isSession, DbWrite.isBatch, List.filter, hlen]
  · have hlen : (collect_items session_id fetch (all_feeds topic)).length ≠ 0 := by
      simpa [List.isEmpty_iff, List.length_eq_zero] using hc
    simp [run_scout, hc, DbWrite.isSession, DbWrite.isBatch, List.filter, hlen]

theorem run_scout_session_and_batch_witness :
    ((run_scout "cybersecurity" 7 (fun _ => Except.error "down")).1.filter
        DbWrite.isSession) = [DbWrite.insertSession "cybersecurity"] ∧
    (run_scout "cybersecurity" 7 (fun _ => Except.error "down")).2.1 = 0 ∧
    (run_scout "cybersecurity" 7 (fun _ => Except.error "down")).2.2 = 7 ∧
    ((run_scout "cybersecurity" 7 (fun _ => Except.error "down")).1.filter
        DbWrite.isBatch) = [] := by
  have h := run_scout_session_and_batch "cybersecurity" 7 (fun _ => Except.error "down")
  exact ⟨h.1, by decide, h.2.2.1, h.2.2.2.1 (by decide)⟩

/-- C8: a feed whose fetch/parse raises contributes zero items; the items of
every other feed are exactly what they would have been had that feed not
failed; a successfully parsed feed contributes exactly its first three
entries (so at most three items); and the collected batch is the in-order
concatenation of per-feed contributions with the failing feed's
contribution empty. -/
theorem scout_source_isolation (session_id : Nat)
    (fetch fetch' : String → Except String (List FeedEntry))
    (feeds : List String) (bad u msg : String) (entries : List FeedEntry)
    (hagree : ∀ v, v ≠ bad → fetch' v = fetch v)
    (hbad : fetch' bad = Except.error msg)
    (hu : u ≠ bad) (hok : fetch u = Except.ok entries) :
    feedItems session_id fetch' bad = [] ∧
    feedItems session_id fetch' u = feedItems session_id fetch u ∧
    feedItems session_id fetch u = (entries.take 3).map (entryToItem session_id u) ∧
    (feedItems session_id fetch u).length ≤ 3 ∧
    collect_items session_id fetch' feeds =
      ((feeds.map
        (fun v => if v = bad then [] else feedItems session_id fetch v)).flatten) := by
  refine ⟨?_, ?_, ?_, ?_, ?_⟩
  · simp [feedItems, hbad]
  · simp only [feedItems, hagree u hu]
  · simp [feedItems, hok]
  · simp only [feedItems, hok, List.length_map]
    exact List.length_take_le 3 entries
  · induction feeds with
    | nil => rfl
    | cons f fs ih =>
      simp only [collect_items, List.map_cons, List.flatten_cons] at ih ⊢
      by_cases hf : f = bad
      · subst hf
        simp [feedItems, hbad, ih]
      · simp only [feedItems, hagree f hf, hf, if_neg, ih]
        simp [hf]

theorem scout_source_isolation_witness :
    feedItems 1
      (fun v => if v = "bad" then Except.error "boom" else Except.ok [⟨"T", "L", none⟩])
      "bad" = [] ∧
    collect_items 1
      (fun v => if v = "bad" then Except.error "boom" else Except.ok [⟨"T", "L", none⟩])
      ["u", "bad"] =
      ((["u", "bad"].map
        (fun v => if v = "bad" then []
          else feedItems 1 (fun _ => Except.ok [⟨"T", "L", none⟩]) v)).flatten) := by
  have h := scout_source_isolation 1 (fun _ => Except.ok [⟨"T", "L", none⟩])
    (fun v => if v = "bad" then Except.error "boom" else Except.ok [⟨"T", "L", none⟩])
    ["u", "bad"] "bad" "u" "boom" [⟨"T", "L", none⟩]
    (fun v hv => by simp [hv]) (by simp) (by decide) rfl
  exact ⟨h.1, h.2.2.2.2⟩

/-- C9: a webhook request whose secret header differs from the configured
secret is answered 403 and triggers no processing step: the body is never
deserialized and nothing is dispatched to the router. -/
theorem webhook_rejects_bad_secret (secret header : Option String)
    (jsonOk appReady : Bool) (h : header ≠ secret) :
    telegram_webhook secret header jsonOk appReady = ⟨403, []⟩ := by
  simp [telegram_webhook, h]

theorem webhook_rejects_bad_secret_witness :
    telegram_webhook (some "s3cret") (some "wrong") true true = ⟨403, []⟩ := by
  exact webhook_rejects_bad_secret (some "s3cret") (some "wrong") true true (by decide)

/-- C10: with no configured secret, a request carrying no secret header
passes the authentication comparison (absent equals absent, mirroring
Python's `None != None` being false), is never answered 403, and with a
well-formed body and an initialized application the update is deserialized
and dispatched with status 200. -/
theorem webhook_no_secret_processes (jsonOk appReady : Bool) :
    (telegram_webhook none none jsonOk appReady).status ≠ 403 ∧
    telegram_webhook none none true true =
      ⟨200, [WebhookStep.deserializeBody, WebhookStep.dispatchUpdate]⟩ := by
  cases jsonOk <;> cases appReady <;> exact ⟨by decide, rfl⟩
